import Mathlib

/-!
Verification of the session-lifecycle and run-marshalling core of the
Node.js binding for an inference engine
(`js/node/src/inference_session_wrap.cc`).

The native N-API layer is shallowly embedded: host values are modelled by
their observable kinds, engine calls by explicit `Except`-valued
parameters, and the mutable wrapper object by a state record threaded
through every method.  Each method returns the pair of its result (a
thrown `NapiError` or the produced value) and the wrapper state after the
call, mirroring the fact that a N-API throw propagates while mutations of
`this` persist.
-/

namespace OrtNodeBinding

/-- Kind of a host exception: `Napi::TypeError` vs plain `Napi::Error`
(`ORT_NAPI_THROW_TYPEERROR*` vs `ORT_NAPI_THROW_ERROR*`). -/
inductive ErrorKind
  | typeError
  | genericError
deriving DecidableEq, Repr

/-- A host exception carrying its kind and message string. -/
structure NapiError where
  kind : ErrorKind
  message : String
deriving DecidableEq, Repr

/-- Data location of a tensor: CPU host memory or a GPU buffer
(wire strings "cpu" / "gpu-buffer"). -/
inductive DataLocation
  | cpu
  | gpuBuffer
deriving DecidableEq, Repr

/-- Cached tensor type info: element-type code, symbolic dimension names
and concrete shape, as read from `Ort::TypeInfo` at load time. -/
structure TensorTypeInfo where
  elementType : Int
  symbolicDimensions : List String
  shape : List Int
deriving DecidableEq, Repr

/-- An ONNX type info descriptor: a tensor description or some
non-tensor ONNX type (sequence, map, ...). -/
inductive TypeInfo
  | tensor (info : TensorTypeInfo)
  | nonTensor
deriving DecidableEq, Repr

/-- The native `Ort::Session` handle, abstracted by what the wrapper
reads from it: its declared inputs and outputs (name and type info, in
declaration order) and the profile file name `EndProfilingAllocated`
would return. -/
structure NativeSession where
  inputs : List (String × TypeInfo)
  outputs : List (String × TypeInfo)
  profileFile : String
deriving DecidableEq, Repr

/-- Observable kind of a host argument value, as tested by
`IsString` / `IsObject` / `IsArrayBuffer` / `IsNumber` in `LoadModel`. -/
inductive NapiArg
  | str (s : String)
  | obj
  | arrayBuffer
  | num (n : Int)
  | other
deriving DecidableEq, Repr

/-- The `preferredOutputLocations` content of the session-options record:
absent, a single location string for all outputs, or a sub-record keyed
by output name. -/
inductive PrefLocSpec
  | absent
  | single (s : String)
  | byName (entries : List (String × String))
deriving DecidableEq, Repr

/-- Environment of one `loadModel` call: the outcome of parsing the
session-options record (`ParseSessionOptions`), the outcome of native
session creation (`new Ort::Session`, whose `std::exception` carries a
message string), and the `preferredOutputLocations` content of the
options record. -/
structure LoadEnv where
  parseSessionOptions : Except NapiError Unit
  createSession : Except String NativeSession
  prefLoc : PrefLocSpec

/-- The engine's `Run` entrypoint, abstracted: given the (name, value)
input pairs and the requested output names, it returns the output values
parallel to the requested names, or fails with a message string. -/
abbrev Engine (V : Type) := List (String × V) → List String → Except String (List V)

/-- The fields of `InferenceSessionWrap` that the modelled methods read
or write. -/
structure SessionWrap where
  initialized_ : Bool
  disposed_ : Bool
  session_ : Option NativeSession
  inputNames_ : List String
  inputTypes_ : List TypeInfo
  outputNames_ : List String
  outputTypes_ : List TypeInfo
  preferredOutputLocations_ : List DataLocation
  ioBinding_ : Bool
deriving DecidableEq, Repr

/-- The constructor `InferenceSessionWrap::InferenceSessionWrap`:
`initialized_(false), disposed_(false), session_(nullptr)` and empty
caches. -/
def mkSessionWrap : SessionWrap :=
  ⟨false, false, none, [], [], [], [], [], false⟩

/-- `state = Fresh`: not initialized and not disposed. -/
def FreshState (st : SessionWrap) : Prop :=
  st.initialized_ = false ∧ st.disposed_ = false

/-- `state = Loaded`: initialized and not disposed. -/
def LoadedState (st : SessionWrap) : Prop :=
  st.initialized_ = true ∧ st.disposed_ = false

/-- `true` exactly on `Except.ok`. -/
def okB {ε α : Type} : Except ε α → Bool
  | .ok _ => true
  | .error _ => false

/-- Modelled from the spec: decoding of a data-location wire string;
`"cpu"` and `"gpu-buffer"` are the two recognized constants. -/
def parseDataLocation (s : String) : Option DataLocation :=
  if s = "cpu" then some DataLocation.cpu
  else if s = "gpu-buffer" then some DataLocation.gpuBuffer
  else none

/-- Modelled from the spec: `ParsePreferredOutputLocations` (declared in
`session_options_helper.h`, whose implementation is not in this
snapshot).  If the option is absent the result is empty; a single
location string applies to all outputs; a sub-record keyed by output
name fails if any key is not an output name or any location string is
unrecognized, and yields a sequence of length `|outputNames|` with CPU
for unspecified outputs. -/
def ParsePreferredOutputLocations (rec : PrefLocSpec) (outputNames : List String) :
    Except NapiError (List DataLocation) :=
  match rec with
  | .absent => .ok []
  | .single s =>
    match parseDataLocation s with
    | some loc => .ok (outputNames.map fun _ => loc)
    | none => .error ⟨.typeError, "Invalid preferred output location: " ++ s⟩
  | .byName entries =>
    if entries.all (fun e => outputNames.contains e.1 && (parseDataLocation e.2).isSome) then
      .ok (outputNames.map fun n =>
        match entries.lookup n with
        | some s => (parseDataLocation s).getD DataLocation.cpu
        | none => DataLocation.cpu)
    else
      .error ⟨.typeError, "Invalid preferred output location."⟩

/-- The argument-shape dispatch of `LoadModel`:
`argsLength == 2 && info[0].IsString() && info[1].IsObject()` or
`argsLength == 4 && info[0].IsArrayBuffer() && info[1].IsNumber() &&
info[2].IsNumber() && info[3].IsObject()`. -/
def validShape (args : List NapiArg) : Bool :=
  match args with
  | [NapiArg.str _, NapiArg.obj] => true
  | [NapiArg.arrayBuffer, NapiArg.num _, NapiArg.num _, NapiArg.obj] => true
  | _ => false

/-- `InferenceSessionWrap::LoadModel`.  Guards (`initialized_` first,
then `disposed_`), the empty-arity type error, shape dispatch, options
parsing, native session creation, caching of input/output names and
types (appended with `emplace_back`), preferred-output-location parsing
and conditional I/O-binding creation; `initialized_` is set only after
every step succeeded.  A failure after `session_.reset(new Ort::Session
...)` leaves the freshly created handle and the cached metadata in
place. -/
def LoadModel (st : SessionWrap) (args : List NapiArg) (env : LoadEnv) :
    Except NapiError Unit × SessionWrap :=
  if st.initialized_ then
    (.error ⟨.genericError, "Model already loaded. Cannot load model multiple times."⟩, st)
  else if st.disposed_ then
    (.error ⟨.genericError, "Session already disposed."⟩, st)
  else if args.length = 0 then
    (.error ⟨.typeError, "Expect argument: model file path or buffer."⟩, st)
  else if validShape args then
    match env.parseSessionOptions with
    | .error e => (.error e, st)
    | .ok _ =>
      match env.createSession with
      | .error msg => (.error ⟨.genericError, msg⟩, st)
      | .ok s =>
        let st1 : SessionWrap :=
          { st with
            session_ := some s
            inputNames_ := st.inputNames_ ++ s.inputs.map Prod.fst
            inputTypes_ := st.inputTypes_ ++ s.inputs.map Prod.snd
            outputNames_ := st.outputNames_ ++ s.outputs.map Prod.fst
            outputTypes_ := st.outputTypes_ ++ s.outputs.map Prod.snd }
        match ParsePreferredOutputLocations env.prefLoc st1.outputNames_ with
        | .error e => (.error e, st1)
        | .ok locs =>
          let st2 : SessionWrap := { st1 with preferredOutputLocations_ := locs }
          let st3 : SessionWrap :=
            if locs.length > 0 then { st2 with ioBinding_ := true } else st2
          (.ok (), { st3 with initialized_ := true })
  else
    (.error ⟨.typeError,
      "Invalid argument: args has to be either (modelPath, options) or (buffer, byteOffset, byteLength, options)."⟩,
     st)

/-- One metadata record of `GetMetadata`:
`{name, isTensor, type?, symbolicDimensions?, shape?}`. -/
structure MetadataRecord where
  name : String
  isTensor : Bool
  type : Option Int
  symbolicDimensions : Option (List String)
  shape : Option (List Int)
deriving DecidableEq, Repr

/-- The record-building loop of `GetMetadata`: for each cached
`(name, typeInfo)` pair, a record with the tensor fields set exactly
when the ONNX type is a tensor. -/
def metadataRecords (names : List String) (types : List TypeInfo) : List MetadataRecord :=
  (names.zip types).map fun p =>
    match p.2 with
    | .tensor info =>
      ⟨p.1, true, some info.elementType, some info.symbolicDimensions, some info.shape⟩
    | .nonTensor => ⟨p.1, false, none, none, none⟩

/-- `InferenceSessionWrap::GetMetadata`; `which = true` is the
`inputMetadata` accessor, `which = false` the `outputMetadata` one. -/
def GetMetadata (st : SessionWrap) (which : Bool) :
    Except NapiError (List MetadataRecord) × SessionWrap :=
  if !st.initialized_ then
    (.error ⟨.genericError, "Session is not initialized."⟩, st)
  else if st.disposed_ then
    (.error ⟨.genericError, "Session already disposed."⟩, st)
  else if which then
    (.ok (metadataRecords st.inputNames_ st.inputTypes_), st)
  else
    (.ok (metadataRecords st.outputNames_ st.outputTypes_), st)

/-- The input-collecting loop of `Run`: iterate `inputNames_` in
declaration order, and for each name the feed has, push the name and its
marshalled value. -/
def collectInputs {V : Type} (inputNames : List String) (feed : List (String × V)) :
    List (String × V) :=
  match inputNames with
  | [] => []
  | n :: rest =>
    match feed.lookup n with
    | some v => (n, v) :: collectInputs rest feed
    | none => collectInputs rest feed

/-- The output-collecting loop of `Run`: iterate `outputNames_` in
declaration order, and for each name the fetch has, push the name and
its (possibly null, i.e. `none`) pre-allocated value. -/
def collectOutputs {V : Type} (outputNames : List String) (fetch : List (String × Option V)) :
    List (String × Option V) :=
  match outputNames with
  | [] => []
  | n :: rest =>
    match fetch.lookup n with
    | some v => (n, v) :: collectOutputs rest fetch
    | none => collectOutputs rest fetch

/-- `InferenceSessionWrap::Run`.  Guards, input/output collection in
declaration order, optional run-options parsing, then either the direct
path (`preferredOutputLocations_` empty) or the I/O-binding path.  On
both paths the result record is assembled by
`result.Set(outputNames_[i], ...)` for `i < outputIndex`, i.e. keyed by
the first `outputIndex` *declared* output names.  The wrapper state is
never mutated. -/
def Run {V : Type} (st : SessionWrap) (engine : Engine V) (feed : List (String × V))
    (fetch : List (String × Option V)) (ropts : Option (Except NapiError Unit)) :
    Except NapiError (List (String × V)) × SessionWrap :=
  if !st.initialized_ then
    (.error ⟨.genericError, "Session is not initialized."⟩, st)
  else if st.disposed_ then
    (.error ⟨.genericError, "Session already disposed."⟩, st)
  else
    let inputs := collectInputs st.inputNames_ feed
    let outputs := collectOutputs st.outputNames_ fetch
    let requested := outputs.map Prod.fst
    match ropts with
    | some (.error e) => (.error e, st)
    | _ =>
      if st.preferredOutputLocations_.length = 0 then
        match engine inputs requested with
        | .error msg => (.error ⟨.genericError, msg⟩, st)
        | .ok values => (.ok ((st.outputNames_.take requested.length).zip values), st)
      else
        if st.preferredOutputLocations_.length ≠ st.outputNames_.length then
          (.error ⟨.genericError,
            "Preferred output locations must have the same size as output names."⟩, st)
        else
          match engine inputs requested with
          | .error msg => (.error ⟨.genericError, msg⟩, st)
          | .ok values =>
            if values.length ≠ requested.length then
              (.error ⟨.genericError, "Output count mismatch."⟩, st)
            else
              (.ok ((st.outputNames_.take requested.length).zip values), st)

/-- `InferenceSessionWrap::Dispose`: guards, then release of the
I/O binding and the native session and the transition to disposed.
`preferredOutputLocations_` and the cached metadata are not cleared. -/
def Dispose (st : SessionWrap) : Except NapiError Unit × SessionWrap :=
  if !st.initialized_ then
    (.error ⟨.genericError, "Session is not initialized."⟩, st)
  else if st.disposed_ then
    (.error ⟨.genericError, "Session already disposed."⟩, st)
  else
    (.ok (), { st with ioBinding_ := false, session_ := none, disposed_ := true })

/-- `InferenceSessionWrap::EndProfiling`: guards, then the profile file
name from the native session. -/
def EndProfiling (st : SessionWrap) : Except NapiError String × SessionWrap :=
  if !st.initialized_ then
    (.error ⟨.genericError, "Session is not initialized."⟩, st)
  else if st.disposed_ then
    (.error ⟨.genericError, "Session already disposed."⟩, st)
  else
    match st.session_ with
    | some s => (.ok s.profileFile, st)
    | none => (.ok "", st)

/-! ## Helper lemmas -/

theorem collectInputs_eq_filterMap {V : Type} (names : List String) (feed : List (String × V)) :
    collectInputs names feed =
      names.filterMap fun n => (feed.lookup n).map fun v => (n, v) := by
  induction names with
  | nil => rfl
  | cons n rest ih =>
    cases h : feed.lookup n <;> simp [collectInputs, h, ih]

theorem collectOutputs_eq_filterMap {V : Type} (names : List String)
    (fetch : List (String × Option V)) :
    collectOutputs names fetch =
      names.filterMap fun n => (fetch.lookup n).map fun v => (n, v) := by
  induction names with
  | nil => rfl
  | cons n rest ih =>
    cases h : fetch.lookup n <;> simp [collectOutputs, h, ih]

theorem collectInputs_lookup_congr {V : Type} (names : List String)
    (feed feed' : List (String × V)) (h : ∀ n, feed.lookup n = feed'.lookup n) :
    collectInputs names feed = collectInputs names feed' := by
  induction names with
  | nil => rfl
  | cons n rest ih => rw [collectInputs, collectInputs, h n, ih]

theorem collectOutputs_lookup_congr {V : Type} (names : List String)
    (fetch fetch' : List (String × Option V)) (h : ∀ n, fetch.lookup n = fetch'.lookup n) :
    collectOutputs names fetch = collectOutputs names fetch' := by
  induction names with
  | nil => rfl
  | cons n rest ih => rw [collectOutputs, collectOutputs, h n, ih]

theorem Run_congr {V : Type} (st : SessionWrap) (e1 e2 : Engine V)
    (feed feed' : List (String × V)) (fetch fetch' : List (String × Option V))
    (ropts : Option (Except NapiError Unit))
    (hin : collectInputs st.inputNames_ feed = collectInputs st.inputNames_ feed')
    (hout : collectOutputs st.outputNames_ fetch = collectOutputs st.outputNames_ fetch')
    (heng :
      e1 (collectInputs st.inputNames_ feed)
          ((collectOutputs st.outputNames_ fetch).map Prod.fst) =
        e2 (collectInputs st.inputNames_ feed')
          ((collectOutputs st.outputNames_ fetch').map Prod.fst)) :
    Run st e1 feed fetch ropts = Run st e2 feed' fetch' ropts := by
  unfold Run
  rw [hin, hout] at heng ⊢
  simp only [heng]

theorem Run_preserves_state {V : Type} (st : SessionWrap) (engine : Engine V)
    (feed : List (String × V)) (fetch : List (String × Option V))
    (ropts : Option (Except NapiError Unit)) :
    (Run st engine feed fetch ropts).2 = st := by
  unfold Run
  dsimp only
  repeat' split
  all_goals rfl

theorem lookup_filter_contains {V : Type} (names : List String) (feed : List (String × V))
    (n : String) (hn : names.contains n = true) :
    (feed.filter fun p => names.contains p.1).lookup n = feed.lookup n := by
  induction feed with
  | nil => rfl
  | cons p rest ih =>
    obtain ⟨k, v⟩ := p
    by_cases hp : names.contains k = true
    · rw [List.filter_cons_of_pos (by simpa using hp)]
      cases hnk : (n == k) with
      | true => simp [List.lookup, hnk]
      | false => simpa [List.lookup, hnk] using ih
    · have hne : (n == k) = false := by
        cases hnk : (n == k) with
        | false => rfl
        | true => exact absurd (eq_of_beq hnk ▸ hn) hp
      rw [List.filter_cons_of_neg (by simpa using hp)]
      simpa [List.lookup, hne] using ih

theorem collectInputs_filter_declared {V : Type} (full names : List String)
    (feed : List (String × V)) (hsub : ∀ n ∈ names, full.contains n = true) :
    collectInputs names (feed.filter fun p => full.contains p.1) =
      collectInputs names feed := by
  induction names with
  | nil => rfl
  | cons n rest ih =>
    simp only [collectInputs,
      lookup_filter_contains full feed n (hsub n (List.mem_cons_self n rest))]
    cases feed.lookup n <;>
      simpa using ih fun m hm => hsub m (List.mem_cons_of_mem n hm)

theorem collectOutputs_filter_declared {V : Type} (full names : List String)
    (fetch : List (String × Option V)) (hsub : ∀ n ∈ names, full.contains n = true) :
    collectOutputs names (fetch.filter fun p => full.contains p.1) =
      collectOutputs names fetch := by
  induction names with
  | nil => rfl
  | cons n rest ih =>
    simp only [collectOutputs,
      lookup_filter_contains full fetch n (hsub n (List.mem_cons_self n rest))]
    cases fetch.lookup n <;>
      simpa using ih fun m hm => hsub m (List.mem_cons_of_mem n hm)

theorem Run_ok_keys_declared {V : Type} (st : SessionWrap) (engine : Engine V)
    (feed : List (String × V)) (fetch : List (String × Option V))
    (ropts : Option (Except NapiError Unit)) (res : List (String × V))
    (hres : (Run st engine feed fetch ropts).1 = Except.ok res) :
    ∀ p ∈ res, p.1 ∈ st.outputNames_ := by
  intro p hp
  obtain ⟨a, b⟩ := p
  unfold Run at hres
  dsimp only at hres
  repeat' split at hres
  all_goals first
    | exact Except.noConfusion hres
    | (simp only [Except.ok.injEq] at hres
       subst hres
       exact List.take_subset _ _ (List.of_mem_zip hp).1)

/-! ## Claim theorems -/

/-- C1: on the direct path (no preferred output locations), a `run` whose
fetch requests only the later-declared output `y2` of the two declared
outputs `y1, y2` returns a record keyed `y1`, holding the value the
engine computed for `y2`: the result loop keys the i-th engine value
with `outputNames_[i]` (declaration-order prefix) instead of the i-th
requested name, so the claim's keying by requested names fails here. -/
theorem C1_run_subset_keyed_by_declared_prefix :
    (Run (V := Nat)
        (LoadModel mkSessionWrap [NapiArg.str "model.onnx", NapiArg.obj]
          ⟨Except.ok (), Except.ok ⟨[("x", TypeInfo.nonTensor)],
            [("y1", TypeInfo.nonTensor), ("y2", TypeInfo.nonTensor)], ""⟩,
           PrefLocSpec.absent⟩).2
        (fun _ reqs => Except.ok (reqs.map fun n => if n = "y2" then 42 else 0))
        [("x", 7)] [("y2", none)] none).1
      = Except.ok [("y1", 42)] := by
  rfl

/-- C2 counterexample: on a session that was loaded and then disposed,
`loadModel` fails with "Model already loaded. Cannot load model multiple
times." — not "Session already disposed." — because the already-loaded
guard precedes the disposed guard. -/
theorem C2_loadModel_on_disposed_message :
    (LoadModel
        (Dispose (LoadModel mkSessionWrap [NapiArg.str "m", NapiArg.obj]
            ⟨Except.ok (), Except.ok ⟨[], [], ""⟩, PrefLocSpec.absent⟩).2).2
        [NapiArg.str "m", NapiArg.obj]
        ⟨Except.ok (), Except.ok ⟨[], [], ""⟩, PrefLocSpec.absent⟩).1
      = Except.error ⟨ErrorKind.genericError,
          "Model already loaded. Cannot load model multiple times."⟩ ∧
    "Model already loaded. Cannot load model multiple times." ≠
      "Session already disposed." := by
  exact ⟨rfl, by decide⟩

/-- C2 (amended): with `initialized_ = true` and `disposed_ = true` (the
Disposed state), every method fails and leaves the state unchanged;
`run`, `getMetadata`, `endProfiling` and a second `dispose` fail with
"Session already disposed.", while `loadModel` fails with "Model already
loaded. Cannot load model multiple times." because its already-loaded
check runs first. -/
theorem C2_disposed_all_methods_fail {V : Type} (st : SessionWrap) (args : List NapiArg)
    (env : LoadEnv) (engine : Engine V) (feed : List (String × V))
    (fetch : List (String × Option V)) (ropts : Option (Except NapiError Unit)) (which : Bool)
    (hinit : st.initialized_ = true) (hdisp : st.disposed_ = true) :
    LoadModel st args env =
      (Except.error ⟨ErrorKind.genericError,
        "Model already loaded. Cannot load model multiple times."⟩, st) ∧
    Run st engine feed fetch ropts =
      (Except.error ⟨ErrorKind.genericError, "Session already disposed."⟩, st) ∧
    GetMetadata st which =
      (Except.error ⟨ErrorKind.genericError, "Session already disposed."⟩, st) ∧
    EndProfiling st =
      (Except.error ⟨ErrorKind.genericError, "Session already disposed."⟩, st) ∧
    Dispose st =
      (Except.error ⟨ErrorKind.genericError, "Session already disposed."⟩, st) := by
  refine ⟨?_, ?_, ?_, ?_, ?_⟩ <;>
    simp [LoadModel, Run, GetMetadata, EndProfiling, Dispose, hinit, hdisp]

/-- C2 witness: the amended theorem applied to a concrete disposed
session. -/
theorem C2_disposed_all_methods_fail_witness :
    LoadModel ⟨true, true, none, [], [], [], [], [], false⟩ []
        ⟨Except.ok (), Except.error "", PrefLocSpec.absent⟩ =
      (Except.error ⟨ErrorKind.genericError,
        "Model already loaded. Cannot load model multiple times."⟩,
       ⟨true, true, none, [], [], [], [], [], false⟩) ∧
    Run (V := Nat) ⟨true, true, none, [], [], [], [], [], false⟩ (fun _ _ => Except.ok [])
        [] [] none =
      (Except.error ⟨ErrorKind.genericError, "Session already disposed."⟩,
       ⟨true, true, none, [], [], [], [], [], false⟩) ∧
    GetMetadata ⟨true, true, none, [], [], [], [], [], false⟩ true =
      (Except.error ⟨ErrorKind.genericError, "Session already disposed."⟩,
       ⟨true, true, none, [], [], [], [], [], false⟩) ∧
    EndProfiling ⟨true, true, none, [], [], [], [], [], false⟩ =
      (Except.error ⟨ErrorKind.genericError, "Session already disposed."⟩,
       ⟨true, true, none, [], [], [], [], [], false⟩) ∧
    Dispose ⟨true, true, none, [], [], [], [], [], false⟩ =
      (Except.error ⟨ErrorKind.genericError, "Session already disposed."⟩,
       ⟨true, true, none, [], [], [], [], [], false⟩) :=
  C2_disposed_all_methods_fail ⟨true, true, none, [], [], [], [], [], false⟩ []
    ⟨Except.ok (), Except.error "", PrefLocSpec.absent⟩ (fun _ _ => Except.ok [])
    [] [] none true rfl rfl

/-- C5: a second `loadModel` on a loaded session fails with "Model
already loaded. Cannot load model multiple times." (which contains
"already loaded"), and the session state is completely unchanged, so the
session remains Loaded and usable. -/
theorem C5_double_load_rejected (st : SessionWrap) (args : List NapiArg) (env : LoadEnv)
    (hinit : st.initialized_ = true) (hdisp : st.disposed_ = false) :
    LoadModel st args env =
      (Except.error ⟨ErrorKind.genericError,
        "Model already loaded. Cannot load model multiple times."⟩, st) ∧
    (∃ a b : String,
      "Model already loaded. Cannot load model multiple times." =
        a ++ "already loaded" ++ b) := by
  refine ⟨?_, "Model ", ". Cannot load model multiple times.", by decide⟩
  simp [LoadModel, hinit]

/-- C5 witness: the theorem applied to a concrete loaded session. -/
theorem C5_double_load_rejected_witness :
    LoadModel ⟨true, false, some ⟨[], [], ""⟩, [], [], [], [], [], false⟩
        [NapiArg.str "m", NapiArg.obj]
        ⟨Except.ok (), Except.ok ⟨[], [], ""⟩, PrefLocSpec.absent⟩ =
      (Except.error ⟨ErrorKind.genericError,
        "Model already loaded. Cannot load model multiple times."⟩,
       ⟨true, false, some ⟨[], [], ""⟩, [], [], [], [], [], false⟩) ∧
    (∃ a b : String,
      "Model already loaded. Cannot load model multiple times." =
        a ++ "already loaded" ++ b) :=
  C5_double_load_rejected ⟨true, false, some ⟨[], [], ""⟩, [], [], [], [], [], false⟩
    [NapiArg.str "m", NapiArg.obj]
    ⟨Except.ok (), Except.ok ⟨[], [], ""⟩, PrefLocSpec.absent⟩ rfl rfl

/-- C6: in the Fresh state, `run`, `getMetadata` (both selectors),
`endProfiling` and `dispose` all fail with "Session is not initialized."
and leave the state unchanged, while `loadModel` passes both state
guards and succeeds when its arguments and every downstream step do. -/
theorem C6_fresh_only_loadModel {V : Type} (st : SessionWrap) (engine : Engine V)
    (feed : List (String × V)) (fetch : List (String × Option V))
    (ropts : Option (Except NapiError Unit)) (which : Bool)
    (h : FreshState st) :
    Run st engine feed fetch ropts =
      (Except.error ⟨ErrorKind.genericError, "Session is not initialized."⟩, st) ∧
    GetMetadata st which =
      (Except.error ⟨ErrorKind.genericError, "Session is not initialized."⟩, st) ∧
    EndProfiling st =
      (Except.error ⟨ErrorKind.genericError, "Session is not initialized."⟩, st) ∧
    Dispose st =
      (Except.error ⟨ErrorKind.genericError, "Session is not initialized."⟩, st) ∧
    (LoadModel st [NapiArg.str "model.onnx", NapiArg.obj]
        ⟨Except.ok (), Except.ok ⟨[], [], ""⟩, PrefLocSpec.absent⟩).1 = Except.ok () := by
  obtain ⟨h1, h2⟩ := h
  refine ⟨?_, ?_, ?_, ?_, ?_⟩ <;>
    simp [Run, GetMetadata, EndProfiling, Dispose, LoadModel, h1, h2, validShape,
      ParsePreferredOutputLocations]

/-- C6 witness: the theorem applied to the freshly constructed
session. -/
theorem C6_fresh_only_loadModel_witness :
    Run (V := Nat) mkSessionWrap (fun _ _ => Except.ok []) [] [] none =
      (Except.error ⟨ErrorKind.genericError, "Session is not initialized."⟩, mkSessionWrap) ∧
    GetMetadata mkSessionWrap true =
      (Except.error ⟨ErrorKind.genericError, "Session is not initialized."⟩, mkSessionWrap) ∧
    EndProfiling mkSessionWrap =
      (Except.error ⟨ErrorKind.genericError, "Session is not initialized."⟩, mkSessionWrap) ∧
    Dispose mkSessionWrap =
      (Except.error ⟨ErrorKind.genericError, "Session is not initialized."⟩, mkSessionWrap) ∧
    (LoadModel mkSessionWrap [NapiArg.str "model.onnx", NapiArg.obj]
        ⟨Except.ok (), Except.ok ⟨[], [], ""⟩, PrefLocSpec.absent⟩).1 = Except.ok () :=
  C6_fresh_only_loadModel mkSessionWrap (fun _ _ => Except.ok []) [] [] none true
    ⟨rfl, rfl⟩

/-- C9: on a loaded session `getMetadata` is pure and deterministic: it
returns the state unchanged, a repeated call with the same selector
returns the identical result, and for each selector the returned records
are exactly those built from the names and type infos cached at load
time. -/
theorem C9_getMetadata_pure (st : SessionWrap) (which : Bool) (h : LoadedState st) :
    (GetMetadata st which).2 = st ∧
    GetMetadata (GetMetadata st which).2 which = GetMetadata st which ∧
    (GetMetadata st true).1 = Except.ok (metadataRecords st.inputNames_ st.inputTypes_) ∧
    (GetMetadata st false).1 = Except.ok (metadataRecords st.outputNames_ st.outputTypes_) := by
  obtain ⟨h1, h2⟩ := h
  refine ⟨?_, ?_, ?_, ?_⟩ <;> cases which <;> simp [GetMetadata, h1, h2]

/-- C9 witness: the theorem applied to a concrete loaded session. -/
theorem C9_getMetadata_pure_witness :
    (GetMetadata ⟨true, false, some ⟨[], [], ""⟩, ["x"], [TypeInfo.nonTensor],
        ["y"], [TypeInfo.nonTensor], [], false⟩ true).2 =
      ⟨true, false, some ⟨[], [], ""⟩, ["x"], [TypeInfo.nonTensor],
        ["y"], [TypeInfo.nonTensor], [], false⟩ ∧
    GetMetadata (GetMetadata ⟨true, false, some ⟨[], [], ""⟩, ["x"], [TypeInfo.nonTensor],
        ["y"], [TypeInfo.nonTensor], [], false⟩ true).2 true =
      GetMetadata ⟨true, false, some ⟨[], [], ""⟩, ["x"], [TypeInfo.nonTensor],
        ["y"], [TypeInfo.nonTensor], [], false⟩ true ∧
    (GetMetadata ⟨true, false, some ⟨[], [], ""⟩, ["x"], [TypeInfo.nonTensor],
        ["y"], [TypeInfo.nonTensor], [], false⟩ true).1 =
      Except.ok (metadataRecords ["x"] [TypeInfo.nonTensor]) ∧
    (GetMetadata ⟨true, false, some ⟨[], [], ""⟩, ["x"], [TypeInfo.nonTensor],
        ["y"], [TypeInfo.nonTensor], [], false⟩ false).1 =
      Except.ok (metadataRecords ["y"] [TypeInfo.nonTensor]) :=
  C9_getMetadata_pure ⟨true, false, some ⟨[], [], ""⟩, ["x"], [TypeInfo.nonTensor],
    ["y"], [TypeInfo.nonTensor], [], false⟩ true ⟨rfl, rfl⟩

/-- C3 counterexample: a `loadModel` from the fresh session that fails
in preferred-output-locations parsing (a key that is not an output name)
propagates a type error and leaves the session not initialized, yet the
native session handle created just before is still held, so
"nativeSession is present iff state = Loaded" fails. -/
theorem C3_late_load_failure_keeps_handle :
    (LoadModel mkSessionWrap [NapiArg.str "model.onnx", NapiArg.obj]
        ⟨Except.ok (), Except.ok ⟨[], [("y", TypeInfo.nonTensor)], ""⟩,
         PrefLocSpec.byName [("bogus", "cpu")]⟩).1
      = Except.error ⟨ErrorKind.typeError, "Invalid preferred output location."⟩ ∧
    (LoadModel mkSessionWrap [NapiArg.str "model.onnx", NapiArg.obj]
        ⟨Except.ok (), Except.ok ⟨[], [("y", TypeInfo.nonTensor)], ""⟩,
         PrefLocSpec.byName [("bogus", "cpu")]⟩).2.initialized_ = false ∧
    (LoadModel mkSessionWrap [NapiArg.str "model.onnx", NapiArg.obj]
        ⟨Except.ok (), Except.ok ⟨[], [("y", TypeInfo.nonTensor)], ""⟩,
         PrefLocSpec.byName [("bogus", "cpu")]⟩).2.session_.isSome = true := by
  exact ⟨rfl, rfl, rfl⟩

/-- C3 (amended): every failing `loadModel` from a fresh session (with
no stale handle) leaves the session in the Fresh state and propagates
the error; the native session handle is absent afterwards exactly when
the failure happened at or before native session creation — a failure in
the later preferred-output-locations step leaves the created handle (and
the cached metadata) in place. -/
theorem C3_load_failure_leaves_fresh (st : SessionWrap) (args : List NapiArg) (env : LoadEnv)
    (e : NapiError) (hf : FreshState st) (hs : st.session_ = none)
    (herr : (LoadModel st args env).1 = Except.error e) :
    FreshState (LoadModel st args env).2 ∧
    (LoadModel st args env).2.session_.isSome =
      (validShape args && okB env.parseSessionOptions && okB env.createSession) := by
  obtain ⟨h1, h2⟩ := hf
  unfold LoadModel at herr ⊢
  rw [h1, h2] at herr ⊢
  simp only [Bool.false_eq_true, if_false] at herr ⊢
  by_cases hlen : args.length = 0
  · rw [if_pos hlen] at herr ⊢
    have hv : validShape args = false := by
      have : args = [] := List.length_eq_zero.mp hlen
      subst this; rfl
    exact ⟨⟨h1, h2⟩, by simp [hs, hv]⟩
  · rw [if_neg hlen] at herr ⊢
    by_cases hv : validShape args
    · rw [if_pos hv] at herr ⊢
      rcases hps : env.parseSessionOptions with ep | u
      · simp only [hps] at herr ⊢
        exact ⟨⟨h1, h2⟩, by simp [hs, hv, okB, hps]⟩
      · simp only [hps] at herr ⊢
        rcases hcs : env.createSession with ec | s
        · simp only [hcs] at herr ⊢
          exact ⟨⟨h1, h2⟩, by simp [hs, hv, okB, hps, hcs]⟩
        · simp only [hcs] at herr ⊢
          rcases hpl : ParsePreferredOutputLocations env.prefLoc
              (st.outputNames_ ++ s.outputs.map Prod.fst) with epl | locs
          · simp only [hpl] at herr ⊢
            exact ⟨⟨rfl, rfl⟩, by simp [hv, okB, hps, hcs]⟩
          · simp only [hpl] at herr ⊢
            simp at herr
    · rw [if_neg hv] at herr ⊢
      exact ⟨⟨h1, h2⟩, by simp [hs, hv]⟩

/-- C3 witness: the amended theorem applied to the concrete failing load
of the counterexample input with a session-creation failure, where the
handle is absent. -/
theorem C3_load_failure_leaves_fresh_witness :
    FreshState (LoadModel mkSessionWrap [NapiArg.str "model.onnx", NapiArg.obj]
        ⟨Except.ok (), Except.error "Load model failed.", PrefLocSpec.absent⟩).2 ∧
    (LoadModel mkSessionWrap [NapiArg.str "model.onnx", NapiArg.obj]
        ⟨Except.ok (), Except.error "Load model failed.", PrefLocSpec.absent⟩).2.session_.isSome =
      (validShape [NapiArg.str "model.onnx", NapiArg.obj] &&
        okB (Except.ok () : Except NapiError Unit) &&
        okB (Except.error "Load model failed." : Except String NativeSession)) :=
  C3_load_failure_leaves_fresh mkSessionWrap [NapiArg.str "model.onnx", NapiArg.obj]
    ⟨Except.ok (), Except.error "Load model failed.", PrefLocSpec.absent⟩
    ⟨ErrorKind.genericError, "Load model failed."⟩ ⟨rfl, rfl⟩ rfl rfl

/-- C7 counterexample: load a model with one output under preferred
location "cpu" (so the I/O binding is created), then dispose: the
binding handle is released but `preferredOutputLocations_` is not
cleared, so the presence invariant fails after `dispose`. -/
theorem C7_dispose_breaks_invariant :
    (Dispose (LoadModel mkSessionWrap [NapiArg.str "m", NapiArg.obj]
        ⟨Except.ok (), Except.ok ⟨[], [("y", TypeInfo.nonTensor)], ""⟩,
         PrefLocSpec.single "cpu"⟩).2).2 =
      ⟨true, true, none, [], [], ["y"], [TypeInfo.nonTensor], [DataLocation.cpu], false⟩ ∧
    [DataLocation.cpu] ≠ ([] : List DataLocation) := by
  exact ⟨rfl, by decide⟩

/-- C7 (amended): starting from a state with no binding and empty
preferred locations, the invariant "ioBinding present iff
preferredOutputLocations non-empty" holds after `loadModel` (whatever
its outcome); `run` never changes the state, so it preserves the
invariant; but `dispose` releases the binding while keeping
`preferredOutputLocations_`, so after `dispose` the binding is absent
regardless of the locations. -/
theorem C7_iobinding_presence {V : Type} (st : SessionWrap) (args : List NapiArg)
    (env : LoadEnv) (engine : Engine V) (feed : List (String × V))
    (fetch : List (String × Option V)) (ropts : Option (Except NapiError Unit))
    (hb : st.ioBinding_ = false) (hp : st.preferredOutputLocations_ = []) :
    ((LoadModel st args env).2.ioBinding_ = true ↔
      (LoadModel st args env).2.preferredOutputLocations_ ≠ []) ∧
    (Run st engine feed fetch ropts).2 = st ∧
    (Dispose st).2.ioBinding_ = false ∧
    (Dispose st).2.preferredOutputLocations_ = st.preferredOutputLocations_ := by
  refine ⟨?_, ?_, ?_, ?_⟩
  · unfold LoadModel
    by_cases h1 : st.initialized_ = true
    · simp [h1, hb, hp]
    · simp only [h1, if_false, Bool.not_eq_true] at *
      by_cases h2 : st.disposed_ = true
      · simp [h1, h2, hb, hp]
      · by_cases hlen : args.length = 0
        · simp [h1, h2, hlen, hb, hp]
        · by_cases hv : validShape args
          · rcases hps : env.parseSessionOptions with ep | u
            · simp [h1, h2, hlen, hv, hps, hb, hp]
            · rcases hcs : env.createSession with ec | s
              · simp [h1, h2, hlen, hv, hps, hcs, hb, hp]
              · rcases hpl : ParsePreferredOutputLocations env.prefLoc
                    (st.outputNames_ ++ s.outputs.map Prod.fst) with epl | locs
                · simp [h1, h2, hlen, hv, hps, hcs, hpl, hb, hp]
                · by_cases hl : locs.length > 0
                  · simp [h1, h2, hlen, hv, hps, hcs, hpl, hl, hb, hp,
                      List.length_pos.mp hl]
                  · have : locs = [] := by
                      cases locs with
                      | nil => rfl
                      | cons a t => exact absurd (by simp) hl
                    subst this
                    simp [h1, h2, hlen, hv, hps, hcs, hpl, hb, hp]
          · simp [h1, h2, hlen, hv, hb, hp]
  · exact Run_preserves_state st engine feed fetch ropts
  · unfold Dispose
    repeat' split
    all_goals simp [hb]
  · unfold Dispose
    repeat' split
    all_goals rfl

/-- C7 witness: the amended theorem applied to the fresh session with a
concrete load environment. -/
theorem C7_iobinding_presence_witness :
    ((LoadModel mkSessionWrap [NapiArg.str "m", NapiArg.obj]
        ⟨Except.ok (), Except.ok ⟨[], [("y", TypeInfo.nonTensor)], ""⟩,
         PrefLocSpec.single "cpu"⟩).2.ioBinding_ = true ↔
      (LoadModel mkSessionWrap [NapiArg.str "m", NapiArg.obj]
        ⟨Except.ok (), Except.ok ⟨[], [("y", TypeInfo.nonTensor)], ""⟩,
         PrefLocSpec.single "cpu"⟩).2.preferredOutputLocations_ ≠ []) ∧
    (Run (V := Nat) mkSessionWrap (fun _ _ => Except.ok []) [] [] none).2 = mkSessionWrap ∧
    (Dispose mkSessionWrap).2.ioBinding_ = false ∧
    (Dispose mkSessionWrap).2.preferredOutputLocations_ =
      mkSessionWrap.preferredOutputLocations_ :=
  C7_iobinding_presence mkSessionWrap [NapiArg.str "m", NapiArg.obj]
    ⟨Except.ok (), Except.ok ⟨[], [("y", TypeInfo.nonTensor)], ""⟩, PrefLocSpec.single "cpu"⟩
    (fun _ _ => Except.ok []) [] [] none rfl rfl

/-- The two accepted argument shapes of `LoadModel`, characterized. -/
theorem validShape_iff (args : List NapiArg) :
    validShape args = true ↔
      (∃ s, args = [NapiArg.str s, NapiArg.obj]) ∨
      (∃ n m, args = [NapiArg.arrayBuffer, NapiArg.num n, NapiArg.num m, NapiArg.obj]) := by
  constructor
  · intro hv
    unfold validShape at hv
    split at hv
    · next s => exact Or.inl ⟨s, rfl⟩
    · next n m => exact Or.inr ⟨n, m, rfl⟩
    · exact absurd hv (by simp)
  · rintro (⟨s, rfl⟩ | ⟨n, m, rfl⟩) <;> rfl

/-- C8: from the Fresh state, `loadModel` accepts exactly the shapes
`(string, object)` and `(ArrayBuffer, number, number, object)`: any
other arity or kind combination fails with a type error (distinguished
from a generic error) leaving the state unchanged, and an accepted shape
proceeds — it succeeds whenever options parsing, session creation and
location parsing do. -/
theorem C8_loadModel_arg_shapes (st : SessionWrap) (args : List NapiArg) (env : LoadEnv)
    (hf : FreshState st) :
    (validShape args = true ↔
      (∃ s, args = [NapiArg.str s, NapiArg.obj]) ∨
      (∃ n m, args = [NapiArg.arrayBuffer, NapiArg.num n, NapiArg.num m, NapiArg.obj])) ∧
    (validShape args = false →
      ∃ msg, LoadModel st args env = (Except.error ⟨ErrorKind.typeError, msg⟩, st)) ∧
    (validShape args = true → ∀ s, env.parseSessionOptions = Except.ok () →
      env.createSession = Except.ok s → env.prefLoc = PrefLocSpec.absent →
      (LoadModel st args env).1 = Except.ok ()) := by
  obtain ⟨h1, h2⟩ := hf
  refine ⟨validShape_iff args, ?_, ?_⟩
  · intro hv
    by_cases hlen : args.length = 0
    · exact ⟨"Expect argument: model file path or buffer.", by simp [LoadModel, h1, h2, hlen]⟩
    · refine ⟨"Invalid argument: args has to be either (modelPath, options) or (buffer, byteOffset, byteLength, options).", ?_⟩
      simp [LoadModel, h1, h2, hlen, hv]
  · intro hv s hps hcs hpl
    have hlen : args.length ≠ 0 := by
      rcases (validShape_iff args).mp hv with ⟨t, rfl⟩ | ⟨n, m, rfl⟩ <;> simp
    simp [LoadModel, h1, h2, hlen, hv, hps, hcs, hpl, ParsePreferredOutputLocations]

/-- C8 witness: the theorem applied to the fresh session and an invalid
one-argument call. -/
theorem C8_loadModel_arg_shapes_witness :
    (validShape [NapiArg.str "m"] = true ↔
      (∃ s, [NapiArg.str "m"] = [NapiArg.str s, NapiArg.obj]) ∨
      (∃ n m, [NapiArg.str "m"] =
        [NapiArg.arrayBuffer, NapiArg.num n, NapiArg.num m, NapiArg.obj])) ∧
    (validShape [NapiArg.str "m"] = false →
      ∃ msg, LoadModel mkSessionWrap [NapiArg.str "m"]
          ⟨Except.ok (), Except.ok ⟨[], [], ""⟩, PrefLocSpec.absent⟩ =
        (Except.error ⟨ErrorKind.typeError, msg⟩, mkSessionWrap)) ∧
    (validShape [NapiArg.str "m"] = true → ∀ s,
      (⟨Except.ok (), Except.ok ⟨[], [], ""⟩, PrefLocSpec.absent⟩ : LoadEnv).parseSessionOptions =
        Except.ok () →
      (⟨Except.ok (), Except.ok ⟨[], [], ""⟩, PrefLocSpec.absent⟩ : LoadEnv).createSession =
        Except.ok s →
      (⟨Except.ok (), Except.ok ⟨[], [], ""⟩, PrefLocSpec.absent⟩ : LoadEnv).prefLoc =
        PrefLocSpec.absent →
      (LoadModel mkSessionWrap [NapiArg.str "m"]
          ⟨Except.ok (), Except.ok ⟨[], [], ""⟩, PrefLocSpec.absent⟩).1 = Except.ok ()) :=
  C8_loadModel_arg_shapes mkSessionWrap [NapiArg.str "m"]
    ⟨Except.ok (), Except.ok ⟨[], [], ""⟩, PrefLocSpec.absent⟩ ⟨rfl, rfl⟩

/-- C4: on a loaded session, `run` passes to the engine exactly the feed
entries whose key is a declared input name (missing inputs are not
defaulted), and exactly the fetch entries whose key is a declared output
name, both in the session's declaration order (`filterMap` over
`inputNames_` / `outputNames_`); the run result depends on the host feed
record only through its key lookups (not its iteration order), and on
the engine only through its value at those collected declaration-ordered
lists. -/
theorem C4_run_declaration_order {V : Type} (st : SessionWrap) (engine : Engine V)
    (feed feed' : List (String × V)) (fetch : List (String × Option V))
    (ropts : Option (Except NapiError Unit)) (h : LoadedState st) :
    collectInputs st.inputNames_ feed =
      st.inputNames_.filterMap (fun n => (feed.lookup n).map fun v => (n, v)) ∧
    collectOutputs st.outputNames_ fetch =
      st.outputNames_.filterMap (fun n => (fetch.lookup n).map fun v => (n, v)) ∧
    ((∀ n, feed.lookup n = feed'.lookup n) →
      Run st engine feed fetch ropts = Run st engine feed' fetch ropts) ∧
    (∀ e1 e2 : Engine V,
      e1 (collectInputs st.inputNames_ feed)
          ((collectOutputs st.outputNames_ fetch).map Prod.fst) =
        e2 (collectInputs st.inputNames_ feed)
          ((collectOutputs st.outputNames_ fetch).map Prod.fst) →
      Run st e1 feed fetch ropts = Run st e2 feed fetch ropts) := by
  refine ⟨collectInputs_eq_filterMap _ _, collectOutputs_eq_filterMap _ _, ?_, ?_⟩
  · intro hl
    have hin := collectInputs_lookup_congr st.inputNames_ feed feed' hl
    exact Run_congr st engine engine feed feed' fetch fetch ropts hin rfl (by rw [hin])
  · intro e1 e2 he
    exact Run_congr st e1 e2 feed feed fetch fetch ropts rfl rfl he

/-- C4 witness: the theorem applied to a concrete loaded session with
input `x` and output `y`. -/
theorem C4_run_declaration_order_witness :
    collectInputs ["x"] [("x", 5)] =
      ["x"].filterMap (fun n =>
        (([("x", 5)] : List (String × Nat)).lookup n).map fun v => (n, v)) ∧
    collectOutputs ["y"] [("y", (none : Option Nat))] =
      ["y"].filterMap (fun n =>
        (([("y", (none : Option Nat))]).lookup n).map fun v => (n, v)) ∧
    ((∀ n, ([("x", 5)] : List (String × Nat)).lookup n =
        ([("x", 5)] : List (String × Nat)).lookup n) →
      Run ⟨true, false, some ⟨[("x", TypeInfo.nonTensor)], [("y", TypeInfo.nonTensor)], ""⟩,
          ["x"], [TypeInfo.nonTensor], ["y"], [TypeInfo.nonTensor], [], false⟩
        (fun _ _ => Except.ok ([] : List Nat)) [("x", 5)] [("y", none)] none =
      Run ⟨true, false, some ⟨[("x", TypeInfo.nonTensor)], [("y", TypeInfo.nonTensor)], ""⟩,
          ["x"], [TypeInfo.nonTensor], ["y"], [TypeInfo.nonTensor], [], false⟩
        (fun _ _ => Except.ok ([] : List Nat)) [("x", 5)] [("y", none)] none) ∧
    (∀ e1 e2 : Engine Nat,
      e1 (collectInputs ["x"] [("x", 5)])
          ((collectOutputs ["y"] [("y", (none : Option Nat))]).map Prod.fst) =
        e2 (collectInputs ["x"] [("x", 5)])
          ((collectOutputs ["y"] [("y", (none : Option Nat))]).map Prod.fst) →
      Run ⟨true, false, some ⟨[("x", TypeInfo.nonTensor)], [("y", TypeInfo.nonTensor)], ""⟩,
          ["x"], [TypeInfo.nonTensor], ["y"], [TypeInfo.nonTensor], [], false⟩
        e1 [("x", 5)] [("y", none)] none =
      Run ⟨true, false, some ⟨[("x", TypeInfo.nonTensor)], [("y", TypeInfo.nonTensor)], ""⟩,
          ["x"], [TypeInfo.nonTensor], ["y"], [TypeInfo.nonTensor], [], false⟩
        e2 [("x", 5)] [("y", none)] none) :=
  C4_run_declaration_order
    ⟨true, false, some ⟨[("x", TypeInfo.nonTensor)], [("y", TypeInfo.nonTensor)], ""⟩,
      ["x"], [TypeInfo.nonTensor], ["y"], [TypeInfo.nonTensor], [], false⟩
    (fun _ _ => Except.ok ([] : List Nat)) [("x", 5)] [("x", 5)] [("y", none)] none
    ⟨rfl, rfl⟩

/-- C10: on a loaded session, feed and fetch entries whose key is not a
declared input (resp. output) name are silently ignored — the run
behaves exactly as if they were absent (so they are not passed to the
engine and cause no error) — and every key of a successful result record
is a declared output name. -/
theorem C10_run_ignores_undeclared {V : Type} (st : SessionWrap) (engine : Engine V)
    (feed : List (String × V)) (fetch : List (String × Option V))
    (ropts : Option (Except NapiError Unit)) (res : List (String × V)) (h : LoadedState st) :
    Run st engine feed fetch ropts =
      Run st engine (feed.filter fun p => st.inputNames_.contains p.1)
        (fetch.filter fun p => st.outputNames_.contains p.1) ropts ∧
    ((Run st engine feed fetch ropts).1 = Except.ok res →
      ∀ p ∈ res, p.1 ∈ st.outputNames_) := by
  have hin : collectInputs st.inputNames_
      (feed.filter fun p => st.inputNames_.contains p.1) =
      collectInputs st.inputNames_ feed :=
    collectInputs_filter_declared st.inputNames_ st.inputNames_ feed
      (fun n hn => by simpa using hn)
  have hout : collectOutputs st.outputNames_
      (fetch.filter fun p => st.outputNames_.contains p.1) =
      collectOutputs st.outputNames_ fetch :=
    collectOutputs_filter_declared st.outputNames_ st.outputNames_ fetch
      (fun n hn => by simpa using hn)
  refine ⟨?_, fun hres => Run_ok_keys_declared st engine feed fetch ropts res hres⟩
  exact Run_congr st engine engine feed _ fetch _ ropts hin.symm hout.symm
    (by rw [hin, hout])

/-- C10 witness: the theorem applied to a concrete loaded session, with
a feed entry `zzz` and a fetch entry `w` that are not declared names. -/
theorem C10_run_ignores_undeclared_witness :
    Run ⟨true, false, some ⟨[("x", TypeInfo.nonTensor)], [("y", TypeInfo.nonTensor)], ""⟩,
        ["x"], [TypeInfo.nonTensor], ["y"], [TypeInfo.nonTensor], [], false⟩
      (fun _ _ => Except.ok ([] : List Nat)) [("x", 5), ("zzz", 9)]
      [("y", none), ("w", none)] none =
    Run ⟨true, false, some ⟨[("x", TypeInfo.nonTensor)], [("y", TypeInfo.nonTensor)], ""⟩,
        ["x"], [TypeInfo.nonTensor], ["y"], [TypeInfo.nonTensor], [], false⟩
      (fun _ _ => Except.ok ([] : List Nat))
      ([("x", 5), ("zzz", 9)].filter fun p => (["x"] : List String).contains p.1)
      ([("y", (none : Option Nat)), ("w", none)].filter fun p =>
        (["y"] : List String).contains p.1) none ∧
    ((Run ⟨true, false, some ⟨[("x", TypeInfo.nonTensor)], [("y", TypeInfo.nonTensor)], ""⟩,
        ["x"], [TypeInfo.nonTensor], ["y"], [TypeInfo.nonTensor], [], false⟩
      (fun _ _ => Except.ok ([] : List Nat)) [("x", 5), ("zzz", 9)]
      [("y", none), ("w", none)] none).1 = Except.ok [] →
      ∀ p ∈ ([] : List (String × Nat)), p.1 ∈ (["y"] : List String)) :=
  C10_run_ignores_undeclared
    ⟨true, false, some ⟨[("x", TypeInfo.nonTensor)], [("y", TypeInfo.nonTensor)], ""⟩,
      ["x"], [TypeInfo.nonTensor], ["y"], [TypeInfo.nonTensor], [], false⟩
    (fun _ _ => Except.ok ([] : List Nat)) [("x", 5), ("zzz", 9)]
    [("y", none), ("w", none)] none [] ⟨rfl, rfl⟩

end OrtNodeBinding
